import Mathlib

/-
Shallow embedding of the VideoBot repository (bot.py, apify_scraper.py,
voice_gen.py, video_gen.py, snscrape_scraper.py) and proofs of the
frozen claims about it.  External services (HTTP endpoints, the chat
transport, transcription) appear as explicit environment data; the file
system is a predicate on paths, with file contents tracked where a claim
needs them.
-/

namespace VideoBot

/-! Local file system: a path either exists or not.  The handlers only
test existence and delete files, so existence is the whole state. -/

abbrev FS := String → Bool

def FS.writeFile (fs : FS) (p : String) : FS :=
  fun q => if q == p then true else fs q

def FS.removeUnchecked (fs : FS) (p : String) : FS :=
  fun q => if q == p then false else fs q

/-- Model of Python os.remove: raises FileNotFoundError when the path is
absent, otherwise deletes it. -/
def osRemove (fs : FS) (p : String) : Except String FS :=
  if fs p then Except.ok (FS.removeUnchecked fs p)
  else Except.error ("FileNotFoundError: " ++ p)

/-- The cleanup step of the finally blocks in bot.py (lines 132-135) and
apify_scraper.py (lines 113-116): if os.path.exists(path) then
os.remove(path).  Result in Except so that "does not raise" is a
statement, not a convention. -/
def cleanupArtifact (fs : FS) (p : String) : Except String FS :=
  if fs p then osRemove fs p else Except.ok fs

/-- The same cleanup step as a total function on the file system (the
guarded os.remove can never raise, which claim C9 proves). -/
def cleanupRun (fs : FS) (p : String) : FS :=
  if fs p then FS.removeUnchecked fs p else fs

/-! Outcome of one HTTP request as the Python code observes it: a
success body, a response with a non-200 status code, or a
requests-level transport exception. -/

inductive HttpOut (α : Type) where
  | ok (a : α)
  | httpErr (code : Nat) (body : String)
  | transport (msg : String)
deriving DecidableEq, Repr

/-- Python str.strip() with no argument: remove leading and trailing
whitespace. -/
def pyStrip (s : String) : String :=
  String.mk (((s.data.dropWhile Char.isWhitespace).reverse.dropWhile
    Char.isWhitespace).reverse)

/-! voice_gen.py : generate_voice -/

/-- Environment of one generate_voice call: its two string arguments,
the outcome the ElevenLabs endpoint would return if called, and the
uuid hex used for the output file name. -/
structure VoiceEnv where
  text : String
  eleven_api_key : String
  postOut : HttpOut String
  uuidHex : String

/-- Observable outcome of generate_voice: how many network requests
were made, which file (path, bytes) was written if any, and the
returned path or raised error. -/
structure VoiceOut where
  networkCalls : Nat
  written : Option (String × String)
  result : Except String String
deriving Repr

/-- voice_gen.py lines 14-82.  Validation happens before the try block,
so those errors are unwrapped; inside the try a non-200 response raises
an Exception that the generic except clause rewraps, while a
RequestException is rewrapped as a network error. -/
def generate_voice (env : VoiceEnv) : VoiceOut :=
  if pyStrip env.text == "" then
    { networkCalls := 0, written := none,
      result := Except.error "Text cannot be empty." }
  else if env.eleven_api_key == "" then
    { networkCalls := 0, written := none,
      result := Except.error "ElevenLabs API key is required." }
  else
    match env.postOut with
    | HttpOut.httpErr code body =>
        { networkCalls := 1, written := none,
          result := Except.error
            ("Unexpected error: Voice generation failed. Status code: "
              ++ toString code ++ ", Response: " ++ body) }
    | HttpOut.transport m =>
        { networkCalls := 1, written := none,
          result := Except.error ("Network error: " ++ m) }
    | HttpOut.ok content =>
        let path := "output_" ++ env.uuidHex ++ ".mp3"
        { networkCalls := 1, written := some (path, content),
          result := Except.ok path }

/-! video_gen.py : generate_avatar_video -/

/-- Body of a 200 response from the video status endpoint: the data
dict with its status string and (when completed) the video url. -/
structure PollData where
  status : String
  video_url : String
deriving DecidableEq, Repr

/-- How the poll loop of video_gen.py lines 89-118 ends. -/
inductive PollOutcome where
  | completed (videoUrl : String)
  | failedJob
  | timeout
  | transportAbort (msg : String)
deriving DecidableEq, Repr

/-- Counters and outcome of the poll loop: how many status queries were
issued, how many sleeps of poll_interval happened, and how it ended. -/
structure PollState where
  queries : Nat
  sleeps : Nat
  outcome : PollOutcome
deriving DecidableEq, Repr

/-- The while loop of video_gen.py lines 90-113.  resp gives the remote
answer to the i-th status query.  The budget argument is
max_retries - retries, checked before each query.  A non-200 response
consumes an attempt, sleeps and continues; a completed status exits the
loop with the video url; a failed status raises at once; any other
status consumes an attempt, sleeps and continues.  A transport
exception from requests.get is not caught inside the loop: it
propagates out (transportAbort). -/
def pollLoop (resp : Nat → HttpOut PollData) : Nat → Nat → PollState
  | _, 0 => { queries := 0, sleeps := 0, outcome := PollOutcome.timeout }
  | i, budget + 1 =>
    match resp i with
    | HttpOut.transport m =>
        { queries := 1, sleeps := 0, outcome := PollOutcome.transportAbort m }
    | HttpOut.httpErr _ _ =>
        let r := pollLoop resp (i + 1) budget
        { queries := r.queries + 1, sleeps := r.sleeps + 1, outcome := r.outcome }
    | HttpOut.ok d =>
        if d.status == "completed" then
          { queries := 1, sleeps := 0, outcome := PollOutcome.completed d.video_url }
        else if d.status == "failed" then
          { queries := 1, sleeps := 0, outcome := PollOutcome.failedJob }
        else
          let r := pollLoop resp (i + 1) budget
          { queries := r.queries + 1, sleeps := r.sleeps + 1, outcome := r.outcome }

/-- Environment of one generate_avatar_video call: its arguments,
whether the audio file exists, and the behaviour of the four remote
endpoints (upload, submit, the status sequence, download). -/
structure RenderEnv where
  audioExists : Bool
  api_key : String
  avatar_id : String
  max_retries : Nat
  uploadOut : HttpOut String
  submitOut : HttpOut String
  polls : Nat → HttpOut PollData
  download : String → String
  timestamp : Nat

/-- Observable outcome of generate_avatar_video: poll-loop counters,
the video file written locally if any (path, bytes), and the returned
path or raised error. -/
structure RenderOut where
  queries : Nat
  sleeps : Nat
  written : Option (String × String)
  result : Except String String
deriving Repr

/-- video_gen.py lines 14-135.  Validation (file existence, key,
avatar id) happens before the try block and is unwrapped.  Inside the
try, exceptions raised for non-200 upload/submit responses, a failed
status, or an exhausted budget are rewrapped by the generic except
clause; RequestException anywhere in the try is rewrapped as a network
error.  On a completed poll the video url is downloaded and written to
a timestamped local file whose path is returned. -/
def generate_avatar_video (env : RenderEnv) : RenderOut :=
  if env.audioExists == false then
    { queries := 0, sleeps := 0, written := none,
      result := Except.error "Audio file not found" }
  else if env.api_key == "" then
    { queries := 0, sleeps := 0, written := none,
      result := Except.error "HeyGen API key is required." }
  else if env.avatar_id == "" then
    { queries := 0, sleeps := 0, written := none,
      result := Except.error "Avatar ID is required." }
  else
    match env.uploadOut with
    | HttpOut.transport m =>
        { queries := 0, sleeps := 0, written := none,
          result := Except.error ("Network error: " ++ m) }
    | HttpOut.httpErr code body =>
        { queries := 0, sleeps := 0, written := none,
          result := Except.error
            ("Unexpected error: Audio upload failed. Status code: "
              ++ toString code ++ ", Response: " ++ body) }
    | HttpOut.ok _audioUrl =>
        match env.submitOut with
        | HttpOut.transport m =>
            { queries := 0, sleeps := 0, written := none,
              result := Except.error ("Network error: " ++ m) }
        | HttpOut.httpErr code body =>
            { queries := 0, sleeps := 0, written := none,
              result := Except.error
                ("Unexpected error: Video generation request failed. Status code: "
                  ++ toString code ++ ", Response: " ++ body) }
        | HttpOut.ok _videoId =>
            let ps := pollLoop env.polls 0 env.max_retries
            match ps.outcome with
            | PollOutcome.transportAbort m =>
                { queries := ps.queries, sleeps := ps.sleeps, written := none,
                  result := Except.error ("Network error: " ++ m) }
            | PollOutcome.failedJob =>
                { queries := ps.queries, sleeps := ps.sleeps, written := none,
                  result := Except.error "Unexpected error: Video generation failed." }
            | PollOutcome.timeout =>
                { queries := ps.queries, sleeps := ps.sleeps, written := none,
                  result := Except.error
                    ("Unexpected error: Video generation did not complete after "
                      ++ toString env.max_retries ++ " retries.") }
            | PollOutcome.completed url =>
                let path := "output_video_" ++ toString env.timestamp ++ ".mp4"
                { queries := ps.queries, sleeps := ps.sleeps,
                  written := some (path, env.download url),
                  result := Except.ok path }

/-! Conversation state: USER_STATES and the per-user session dict. -/

inductive InputType where
  | direct
  | twitter
  | voice
deriving DecidableEq, Repr

/-- One session dict: input_type always present; handle and keyword
only ever set for twitter sessions in apify_scraper.py. -/
structure UserState where
  input_type : InputType
  handle : Option String := none
  keyword : Option String := none
deriving DecidableEq, Repr

/-- USER_STATES, keyed by telegram user id. -/
abbrev Store := Nat → Option UserState

def Store.setSession (st : Store) (uid : Nat) (s : UserState) : Store :=
  fun u => if u == uid then some s else st u

/-- USER_STATES.pop(user_id, None). -/
def Store.popSession (st : Store) (uid : Nat) : Store :=
  fun u => if u == uid then none else st u

/-- handle_button (both entry points): overwrite the session with a
fresh one holding only the chosen input type. -/
def handle_button (st : Store) (uid : Nat) (it : InputType) : Store :=
  st.setSession uid { input_type := it }

/-- An incoming non-command update: a text message or a voice note.
update.message.text is None on a voice note and update.message.voice is
None on a text message. -/
inductive Incoming where
  | textMsg (s : String)
  | voiceNote
deriving DecidableEq, Repr

def Incoming.textOf : Incoming → Option String
  | Incoming.textMsg s => some s
  | Incoming.voiceNote => none

/-- External collaborators of the two process_content handlers, at
their interface boundary: the tweet scraper, whisper transcription of
the incoming voice note, generate_gpt_script, generate_voice (returns
the audio path it wrote) and generate_avatar_video (returns the video
path it wrote).  Except.error means the call raised. -/
structure Env where
  scrape : String → String → Except String (List String)
  transcribe : Except String String
  gpt : String → Except String String
  voiceGen : String → Except String String
  videoGen : String → Except String String

/-- State at the moment the try block of process_content is left:
mutations so far, replies sent so far, which of the locals audio/video
file-path variables are bound, and the exception in flight if any. -/
structure TryRes where
  store : Store
  fs : FS
  replies : List String
  audioVar : Option String := none
  videoVar : Option String := none
  exn : Option String := none

/-- Result of a whole process_content call.  audioArtifact/videoArtifact
record which artifact files the invocation created (the bound locals),
so that cleanup claims can refer to them. -/
structure HandlerResult where
  store : Store
  fs : FS
  replies : List String
  audioArtifact : Option String
  videoArtifact : Option String
  errorReported : Option String

/-- The except/finally epilogue shared by both handlers (bot.py lines
125-135, apify_scraper.py lines 107-116): report the exception if one
is in flight, then unconditionally pop the session and delete each
artifact file that was created and still exists. -/
def applyFinally (errMsgHead : String) (uid : Nat) (r : TryRes) : HandlerResult :=
  let replies := r.replies ++
    (match r.exn with
     | some e => [errMsgHead ++ e]
     | none => [])
  let st := Store.popSession r.store uid
  let fs1 := match r.audioVar with
    | some p => cleanupRun r.fs p
    | none => r.fs
  let fs2 := match r.videoVar with
    | some p => cleanupRun fs1 p
    | none => fs1
  { store := st, fs := fs2, replies := replies,
    audioArtifact := r.audioVar, videoArtifact := r.videoVar,
    errorReported := r.exn }

/-- Shared tail of the apify_scraper.py try block (lines 98-105): show
the script, synthesize the voiceover, render the avatar video, send
it.  Each generation step may raise; created files enter the file
system under the path the generator returned. -/
def apifyPipelineTail (env : Env) (st : Store) (fs : FS) (replies : List String)
    (script : String) : TryRes :=
  let replies := replies ++
    ["Generated Script:\n\n" ++ script, "Generating voiceover..."]
  match env.voiceGen script with
  | Except.error e =>
      { store := st, fs := fs, replies := replies, exn := some e }
  | Except.ok audioPath =>
      let fs := fs.writeFile audioPath
      let replies := replies ++ ["Creating avatar video..."]
      match env.videoGen audioPath with
      | Except.error e =>
          { store := st, fs := fs, replies := replies,
            audioVar := some audioPath, exn := some e }
      | Except.ok videoPath =>
          let fs := fs.writeFile videoPath
          { store := st, fs := fs,
            replies := replies ++ ["[video] Your Custom Video"],
            audioVar := some audioPath, videoVar := some videoPath }

/-- The try block of apify_scraper.py process_content (lines 57-105),
dispatching on the session fields exactly as the if/elif chain does.
A twitter session with both handle and keyword set falls through every
branch and hits the unbound local script (NameError); reading .text of
a voice note raises AttributeError. -/
def apifyTryBody (env : Env) (st : Store) (fs : FS) (uid : Nat) (s : UserState)
    (msg : Incoming) : TryRes :=
  match s.input_type, s.handle, s.keyword with
  | InputType.twitter, none, _ =>
      match msg.textOf with
      | none =>
          { store := st, fs := fs, replies := [],
            exn := some "AttributeError: NoneType has no attribute strip" }
      | some t =>
          let handle := pyStrip t
          { store := st.setSession uid { s with handle := some handle },
            fs := fs,
            replies := ["Got handle @" ++ handle
              ++ "\nNow send a keyword to search:"] }
  | InputType.twitter, some handle, none =>
      match msg.textOf with
      | none =>
          { store := st, fs := fs, replies := [],
            exn := some "AttributeError: NoneType has no attribute strip" }
      | some t =>
          let keyword := pyStrip t
          let st1 := st.setSession uid { s with keyword := some keyword }
          let replies := ["Scraping tweets for @" ++ handle
            ++ " with keyword \x27" ++ keyword ++ "\x27..."]
          match env.scrape handle keyword with
          | Except.error e =>
              { store := st1, fs := fs, replies := replies, exn := some e }
          | Except.ok tweets =>
              if tweets.isEmpty then
                { store := st1.popSession uid, fs := fs,
                  replies := replies ++ ["No tweets found."] }
              else
                let prompt := String.intercalate "\n" (tweets.take 5)
                match env.gpt prompt with
                | Except.error e =>
                    { store := st1, fs := fs, replies := replies, exn := some e }
                | Except.ok script =>
                    apifyPipelineTail env st1 fs replies script
  | InputType.twitter, some _, some _ =>
      { store := st, fs := fs, replies := [],
        exn := some "NameError: name script is not defined" }
  | InputType.direct, _, _ =>
      match msg.textOf with
      | none =>
          { store := st, fs := fs, replies := [],
            exn := some "AttributeError: NoneType has no attribute strip" }
      | some t =>
          apifyPipelineTail env st fs [] (pyStrip t)
  | InputType.voice, _, _ =>
      match msg with
      | Incoming.voiceNote =>
          match env.transcribe with
          | Except.error e =>
              { store := st, fs := fs, replies := [], exn := some e }
          | Except.ok prompt =>
              let replies := ["Transcribed Idea:\n" ++ prompt]
              match env.gpt prompt with
              | Except.error e =>
                  { store := st, fs := fs, replies := replies, exn := some e }
              | Except.ok script =>
                  apifyPipelineTail env st fs replies script
      | Incoming.textMsg _ =>
          { store := st, fs := fs, replies := ["Send a voice message."] }

/-- apify_scraper.py process_content (lines 50-116): no session means
an early reply with no try/finally; with a session, the try body runs
under the except/finally epilogue. -/
def apify_process_content (env : Env) (st : Store) (fs : FS) (uid : Nat)
    (msg : Incoming) : HandlerResult :=
  match st uid with
  | none =>
      { store := st, fs := fs, replies := ["Please start with /start"],
        audioArtifact := none, videoArtifact := none, errorReported := none }
  | some s => applyFinally "Error occurred: " uid (apifyTryBody env st fs uid s msg)

/-- Shared tail of the bot.py try block (lines 102-123): show the
script, synthesize and send the voiceover, render and send the avatar
video. -/
def botPipelineTail (env : Env) (st : Store) (fs : FS) (replies : List String)
    (script : String) : TryRes :=
  let replies := replies ++
    ["📄 Generated Script:\n\n" ++ script, "🔊 Generating voiceover..."]
  match env.voiceGen script with
  | Except.error e =>
      { store := st, fs := fs, replies := replies, exn := some e }
  | Except.ok audioPath =>
      let fs := fs.writeFile audioPath
      let replies := replies ++ ["[audio] 🎧 Your Voiceover File",
        "🎬 Creating avatar video..."]
      match env.videoGen audioPath with
      | Except.error e =>
          { store := st, fs := fs, replies := replies,
            audioVar := some audioPath, exn := some e }
      | Except.ok videoPath =>
          let fs := fs.writeFile videoPath
          { store := st, fs := fs,
            replies := replies ++ ["[video] 🎥 Your Custom Video"],
            audioVar := some audioPath, videoVar := some videoPath }

/-- The try block of bot.py process_content (lines 73-123): direct
text, voice note (transcribe then script), or the paused-twitter early
return. -/
def botTryBody (env : Env) (st : Store) (fs : FS) (s : UserState)
    (msg : Incoming) : TryRes :=
  match s.input_type with
  | InputType.direct =>
      match msg.textOf with
      | none =>
          { store := st, fs := fs, replies := [],
            exn := some "AttributeError: NoneType has no attribute strip" }
      | some t =>
          botPipelineTail env st fs ["📝 Processing your script..."] (pyStrip t)
  | InputType.voice =>
      match msg with
      | Incoming.voiceNote =>
          let replies := ["🎤 Transcribing your voice message..."]
          match env.transcribe with
          | Except.error e =>
              { store := st, fs := fs, replies := replies, exn := some e }
          | Except.ok prompt =>
              let replies := replies ++ ["🖋️ Transcribed Idea:\n" ++ prompt,
                "📝 Generating script from your idea..."]
              match env.gpt prompt with
              | Except.error e =>
                  { store := st, fs := fs, replies := replies, exn := some e }
              | Except.ok script =>
                  botPipelineTail env st fs replies script
      | Incoming.textMsg _ =>
          { store := st, fs := fs,
            replies := ["⚠️ Please send a voice message."] }
  | InputType.twitter =>
      { store := st, fs := fs,
        replies := ["⚠️ Twitter scraping is currently paused. Use /start to choose another option."] }

/-- bot.py process_content (lines 62-135). -/
def bot_process_content (env : Env) (st : Store) (fs : FS) (uid : Nat)
    (msg : Incoming) : HandlerResult :=
  match st uid with
  | none =>
      { store := st, fs := fs, replies := ["⚠️ Please start with /start"],
        audioArtifact := none, videoArtifact := none, errorReported := none }
  | some s => applyFinally "⚠️ An error occurred: " uid (botTryBody env st fs s msg)

/-! Helper lemmas about the file system and the session store. -/

theorem removeUnchecked_self (fs : FS) (p : String) :
    FS.removeUnchecked fs p p = false := by
  simp [FS.removeUnchecked]

theorem cleanupRun_self (fs : FS) (p : String) : cleanupRun fs p p = false := by
  unfold cleanupRun
  by_cases h : fs p = true
  · simp [h, FS.removeUnchecked]
  · simp [h]

theorem cleanupRun_preserves_absent (fs : FS) (p q : String) (h : fs p = false) :
    cleanupRun fs q p = false := by
  unfold cleanupRun FS.removeUnchecked
  by_cases hq : fs q = true
  · simp [hq]
    intro _
    exact h
  · simp [hq]
    exact h

theorem popSession_self (st : Store) (uid : Nat) :
    Store.popSession st uid uid = none := by
  simp [Store.popSession]

/-- Claim C9: the guarded artifact-cleanup step never raises; run on an
absent path it returns the file system unchanged, and a second cleanup
after one that deleted the path also returns unchanged without
raising. -/
theorem claim_C9_cleanup_idempotent (fs : FS) (p : String) :
    cleanupArtifact fs p = Except.ok (cleanupRun fs p) ∧
    (fs p = false → cleanupRun fs p = fs) ∧
    cleanupArtifact (cleanupRun fs p) p = Except.ok (cleanupRun fs p) := by
  refine ⟨?_, ?_, ?_⟩
  · by_cases h : fs p = true
    · simp [cleanupArtifact, cleanupRun, osRemove, h]
    · simp [cleanupArtifact, cleanupRun, osRemove, h]
  · intro h
    simp [cleanupRun, h]
  · have habs := cleanupRun_self fs p
    simp [cleanupArtifact, habs]

def fsW : FS := fun q => q == "output_a.mp3"

theorem claim_C9_witness :
    cleanupArtifact fsW "output_b.mp3" = Except.ok (cleanupRun fsW "output_b.mp3") ∧
    (fsW "output_b.mp3" = false → cleanupRun fsW "output_b.mp3" = fsW) ∧
    cleanupArtifact (cleanupRun fsW "output_b.mp3") "output_b.mp3"
      = Except.ok (cleanupRun fsW "output_b.mp3") :=
  claim_C9_cleanup_idempotent fsW "output_b.mp3"

/-- Claim C7: generate_voice with empty text or an empty credential
makes zero network calls, writes no audio file, and raises one of the
two validation errors. -/
theorem claim_C7_voice_validation (env : VoiceEnv)
    (h : env.text = "" ∨ env.eleven_api_key = "") :
    (generate_voice env).networkCalls = 0 ∧
    (generate_voice env).written = none ∧
    ((generate_voice env).result = Except.error "Text cannot be empty." ∨
     (generate_voice env).result = Except.error "ElevenLabs API key is required.") := by
  rcases h with h | h
  · have h0 : (pyStrip env.text == "") = true := by
      rw [h]
      rfl
    simp [generate_voice, h0]
  · by_cases ht : (pyStrip env.text == "") = true
    · simp [generate_voice, ht]
    · simp [generate_voice, ht, h]

def voiceEnvW : VoiceEnv :=
  { text := "", eleven_api_key := "k", postOut := HttpOut.ok "bytes", uuidHex := "u" }

theorem claim_C7_witness :
    (voiceEnvW.text = "" ∨ voiceEnvW.eleven_api_key = "") ∧
    ((generate_voice voiceEnvW).networkCalls = 0 ∧
     (generate_voice voiceEnvW).written = none ∧
     ((generate_voice voiceEnvW).result = Except.error "Text cannot be empty." ∨
      (generate_voice voiceEnvW).result = Except.error "ElevenLabs API key is required.")) :=
  ⟨Or.inl rfl, claim_C7_voice_validation voiceEnvW (Or.inl rfl)⟩

/-! Claims about the avatar video renderer. -/

theorem pollLoop_queries_le (resp : Nat → HttpOut PollData) :
    ∀ budget i, (pollLoop resp i budget).queries ≤ budget := by
  intro budget
  induction budget with
  | zero => intro i; simp [pollLoop]
  | succ n ih =>
    intro i
    cases h : resp i with
    | transport m => simp [pollLoop, h]
    | httpErr c b =>
        simp [pollLoop, h]
        exact ih (i + 1)
    | ok d =>
        by_cases hc : (d.status == "completed") = true
        · simp [pollLoop, h, hc]
        · by_cases hf : (d.status == "failed") = true
          · simp [pollLoop, h, hc, hf]
          · simp [pollLoop, h, hc, hf]
            exact ih (i + 1)

/-- Claim C3: with max_retries = 3 and remote statuses
[processing, processing, completed], the renderer makes exactly 3
status queries, sleeps exactly 2 times, and returns a path whose file
holds the bytes downloaded from the completed video url. -/
theorem claim_C3_render_completes_after_two_sleeps
    (env : RenderEnv) (au vi url u0 u1 : String)
    (hx : env.audioExists = true) (hk : env.api_key ≠ "")
    (ha : env.avatar_id ≠ "")
    (hu : env.uploadOut = HttpOut.ok au) (hs : env.submitOut = HttpOut.ok vi)
    (hm : env.max_retries = 3)
    (h0 : env.polls 0 = HttpOut.ok { status := "processing", video_url := u0 })
    (h1 : env.polls 1 = HttpOut.ok { status := "processing", video_url := u1 })
    (h2 : env.polls 2 = HttpOut.ok { status := "completed", video_url := url }) :
    (generate_avatar_video env).queries = 3 ∧
    (generate_avatar_video env).sleeps = 2 ∧
    (generate_avatar_video env).result =
      Except.ok ("output_video_" ++ toString env.timestamp ++ ".mp4") ∧
    (generate_avatar_video env).written =
      some ("output_video_" ++ toString env.timestamp ++ ".mp4",
        env.download url) := by
  have hp : pollLoop env.polls 0 3 =
      { queries := 3, sleeps := 2, outcome := PollOutcome.completed url } := by
    simp [pollLoop, h0, h1, h2]
  simp [generate_avatar_video, hx, hk, ha, hu, hs, hm, hp]

/-- Claim C4: a failed status on the second poll (after a first
non-terminal status) raises immediately: exactly 2 queries, no matter
how much retry budget remains. -/
theorem claim_C4_render_failed_immediate
    (env : RenderEnv) (au vi s0 u0 u1 : String) (n : Nat)
    (hx : env.audioExists = true) (hk : env.api_key ≠ "")
    (ha : env.avatar_id ≠ "")
    (hu : env.uploadOut = HttpOut.ok au) (hs : env.submitOut = HttpOut.ok vi)
    (hm : env.max_retries = n + 2)
    (h0 : env.polls 0 = HttpOut.ok { status := s0, video_url := u0 })
    (hs0c : s0 ≠ "completed") (hs0f : s0 ≠ "failed")
    (h1 : env.polls 1 = HttpOut.ok { status := "failed", video_url := u1 }) :
    (generate_avatar_video env).queries = 2 ∧
    (generate_avatar_video env).sleeps = 1 ∧
    (generate_avatar_video env).result =
      Except.error "Unexpected error: Video generation failed." ∧
    (generate_avatar_video env).written = none := by
  have hp : pollLoop env.polls 0 (n + 2) =
      { queries := 2, sleeps := 1, outcome := PollOutcome.failedJob } := by
    simp [pollLoop, h0, h1, hs0c, hs0f]
  simp [generate_avatar_video, hx, hk, ha, hu, hs, hm, hp]

/-- Claim C5: with max_retries = 2 and a remote that always answers
processing, the poll loop stops after exactly 2 status queries and the
call raises the timeout failure; in general the poll loop never makes
more than max_retries queries. -/
theorem claim_C5_render_timeout_after_budget
    (env : RenderEnv) (au vi : String) (url : Nat → String)
    (hx : env.audioExists = true) (hk : env.api_key ≠ "")
    (ha : env.avatar_id ≠ "")
    (hu : env.uploadOut = HttpOut.ok au) (hs : env.submitOut = HttpOut.ok vi)
    (hm : env.max_retries = 2)
    (hp : ∀ i, env.polls i =
      HttpOut.ok { status := "processing", video_url := url i }) :
    ((generate_avatar_video env).queries = 2 ∧
     (generate_avatar_video env).result = Except.error
       "Unexpected error: Video generation did not complete after 2 retries." ∧
     (generate_avatar_video env).written = none) ∧
    (∀ resp budget i, (pollLoop resp i budget).queries ≤ budget) := by
  refine ⟨?_, fun resp budget i => pollLoop_queries_le resp budget i⟩
  have hpl : pollLoop env.polls 0 2 =
      { queries := 2, sleeps := 2, outcome := PollOutcome.timeout } := by
    simp [pollLoop, hp 0, hp 1]
  have h2 : toString (2 : Nat) = "2" := rfl
  simp [generate_avatar_video, hx, hk, ha, hu, hs, hm, hpl, h2]

/-- Finite status sequence as a response stream; queries beyond the
end keep answering processing. -/
def pollsSeq (l : List (HttpOut PollData)) : Nat → HttpOut PollData :=
  fun i => l.getD i (HttpOut.ok { status := "processing", video_url := "" })

def renderEnvC3 : RenderEnv :=
  { audioExists := true, api_key := "k", avatar_id := "av", max_retries := 3,
    uploadOut := HttpOut.ok "https://audio.url/1",
    submitOut := HttpOut.ok "vid-1",
    polls := pollsSeq
      [HttpOut.ok { status := "processing", video_url := "" },
       HttpOut.ok { status := "processing", video_url := "" },
       HttpOut.ok { status := "completed", video_url := "https://video.url/1" }],
    download := fun u => "bytes-of " ++ u, timestamp := 7 }

theorem claim_C3_witness :
    (renderEnvC3.audioExists = true ∧ renderEnvC3.max_retries = 3) ∧
    ((generate_avatar_video renderEnvC3).queries = 3 ∧
     (generate_avatar_video renderEnvC3).sleeps = 2 ∧
     (generate_avatar_video renderEnvC3).result =
       Except.ok ("output_video_" ++ toString renderEnvC3.timestamp ++ ".mp4") ∧
     (generate_avatar_video renderEnvC3).written =
       some ("output_video_" ++ toString renderEnvC3.timestamp ++ ".mp4",
         renderEnvC3.download "https://video.url/1")) :=
  ⟨⟨rfl, rfl⟩,
   claim_C3_render_completes_after_two_sleeps renderEnvC3
     "https://audio.url/1" "vid-1" "https://video.url/1" "" ""
     rfl (by decide) (by decide) rfl rfl rfl rfl rfl rfl⟩

def renderEnvC4 : RenderEnv :=
  { audioExists := true, api_key := "k", avatar_id := "av", max_retries := 5,
    uploadOut := HttpOut.ok "https://audio.url/1",
    submitOut := HttpOut.ok "vid-1",
    polls := pollsSeq
      [HttpOut.ok { status := "processing", video_url := "" },
       HttpOut.ok { status := "failed", video_url := "" }],
    download := fun u => "bytes-of " ++ u, timestamp := 7 }

theorem claim_C4_witness :
    (renderEnvC4.max_retries = 3 + 2 ∧
     renderEnvC4.polls 1 = HttpOut.ok { status := "failed", video_url := "" }) ∧
    ((generate_avatar_video renderEnvC4).queries = 2 ∧
     (generate_avatar_video renderEnvC4).sleeps = 1 ∧
     (generate_avatar_video renderEnvC4).result =
       Except.error "Unexpected error: Video generation failed." ∧
     (generate_avatar_video renderEnvC4).written = none) :=
  ⟨⟨rfl, rfl⟩,
   claim_C4_render_failed_immediate renderEnvC4
     "https://audio.url/1" "vid-1" "processing" "" "" 3
     rfl (by decide) (by decide) rfl rfl rfl rfl (by decide) (by decide) rfl⟩

def renderEnvC5 : RenderEnv :=
  { audioExists := true, api_key := "k", avatar_id := "av", max_retries := 2,
    uploadOut := HttpOut.ok "https://audio.url/1",
    submitOut := HttpOut.ok "vid-1",
    polls := fun _ => HttpOut.ok { status := "processing", video_url := "" },
    download := fun u => "bytes-of " ++ u, timestamp := 7 }

theorem claim_C5_witness :
    (renderEnvC5.max_retries = 2 ∧
     (∀ i, renderEnvC5.polls i =
       HttpOut.ok { status := "processing", video_url := "" })) ∧
    (((generate_avatar_video renderEnvC5).queries = 2 ∧
      (generate_avatar_video renderEnvC5).result = Except.error
        "Unexpected error: Video generation did not complete after 2 retries." ∧
      (generate_avatar_video renderEnvC5).written = none) ∧
     (∀ resp budget i, (pollLoop resp i budget).queries ≤ budget)) :=
  ⟨⟨rfl, fun _ => rfl⟩,
   claim_C5_render_timeout_after_budget renderEnvC5
     "https://audio.url/1" "vid-1" (fun _ => "")
     rfl (by decide) (by decide) rfl rfl rfl (fun _ => rfl)⟩

/-- Environment refuting claim C6: budget 3, second status query hits
a requests transport exception, later queries would answer
processing. -/
def renderEnvC6 : RenderEnv :=
  { audioExists := true, api_key := "k", avatar_id := "av", max_retries := 3,
    uploadOut := HttpOut.ok "https://audio.url/1",
    submitOut := HttpOut.ok "vid-1",
    polls := pollsSeq
      [HttpOut.ok { status := "processing", video_url := "" },
       HttpOut.transport "connection reset"],
    download := fun u => "bytes-of " ++ u, timestamp := 7 }

/-- Claim C6 counterexample: with retry budget 3 and a transport
failure on the second status query, the renderer surfaces a network
error at once after only 2 queries and 1 sleep; the claimed behaviour
(count the attempt, sleep, continue polling) would have made a third
query on this input. -/
theorem claim_C6_counterexample :
    (generate_avatar_video renderEnvC6).queries = 2 ∧
    (generate_avatar_video renderEnvC6).sleeps = 1 ∧
    (generate_avatar_video renderEnvC6).result =
      Except.error "Network error: connection reset" ∧
    (generate_avatar_video renderEnvC6).written = none := by
  refine ⟨?_, ?_, ?_, ?_⟩ <;> rfl

/-- Claim C6 as amended: inside the poll loop a non-success (non-200)
poll response is what gets retried (a consumed attempt, a sleep, and
the loop continues), while a network-level transport exception during
a status query is surfaced immediately as a network error, inside the
poll loop just as outside it. -/
theorem claim_C6_amended_transport_not_retried
    (resp : Nat → HttpOut PollData) (i n code : Nat) (body m : String)
    (env : RenderEnv) (au vi : String) :
    (resp i = HttpOut.httpErr code body →
      pollLoop resp i (n + 1) =
        { queries := (pollLoop resp (i + 1) n).queries + 1,
          sleeps := (pollLoop resp (i + 1) n).sleeps + 1,
          outcome := (pollLoop resp (i + 1) n).outcome }) ∧
    (resp i = HttpOut.transport m →
      pollLoop resp i (n + 1) =
        { queries := 1, sleeps := 0,
          outcome := PollOutcome.transportAbort m }) ∧
    (env.audioExists = true → env.api_key ≠ "" → env.avatar_id ≠ "" →
      env.uploadOut = HttpOut.ok au → env.submitOut = HttpOut.ok vi →
      (pollLoop env.polls 0 env.max_retries).outcome =
        PollOutcome.transportAbort m →
      (generate_avatar_video env).result =
        Except.error ("Network error: " ++ m)) := by
  refine ⟨?_, ?_, ?_⟩
  · intro h
    simp [pollLoop, h]
  · intro h
    simp [pollLoop, h]
  · intro hx hk ha hu hs hout
    simp [generate_avatar_video, hx, hk, ha, hu, hs, hout]

theorem claim_C6_amended_witness :
    (renderEnvC6.polls 1 = HttpOut.transport "connection reset" ∧
     (pollLoop renderEnvC6.polls 0 renderEnvC6.max_retries).outcome =
       PollOutcome.transportAbort "connection reset") ∧
    (pollLoop renderEnvC6.polls 1 (1 + 1) =
       { queries := 1, sleeps := 0,
         outcome := PollOutcome.transportAbort "connection reset" } ∧
     (generate_avatar_video renderEnvC6).result =
       Except.error ("Network error: " ++ "connection reset")) :=
  ⟨⟨rfl, rfl⟩,
   ⟨(claim_C6_amended_transport_not_retried renderEnvC6.polls 1 1 0 "" "connection reset"
       renderEnvC6 "https://audio.url/1" "vid-1").2.1 rfl,
    (claim_C6_amended_transport_not_retried renderEnvC6.polls 1 1 0 "" "connection reset"
       renderEnvC6 "https://audio.url/1" "vid-1").2.2
      rfl (by decide) (by decide) rfl rfl rfl⟩⟩

/-! Claims about the message handlers and the session store. -/

theorem applyFinally_cleanup (eh : String) (uid : Nat) (r : TryRes) :
    (applyFinally eh uid r).store uid = none ∧
    (∀ p, (applyFinally eh uid r).audioArtifact = some p →
      (applyFinally eh uid r).fs p = false) ∧
    (∀ p, (applyFinally eh uid r).videoArtifact = some p →
      (applyFinally eh uid r).fs p = false) := by
  refine ⟨?_, ?_, ?_⟩
  · simp [applyFinally, Store.popSession]
  · intro p hp
    simp [applyFinally] at hp
    cases hv : r.videoVar with
    | none => simp [applyFinally, hp, hv, cleanupRun_self]
    | some v =>
        simp [applyFinally, hp, hv]
        exact cleanupRun_preserves_absent _ _ _ (cleanupRun_self r.fs p)
  · intro p hp
    simp [applyFinally] at hp
    cases ha : r.audioVar with
    | none => simp [applyFinally, hp, ha, cleanupRun_self]
    | some a => simp [applyFinally, hp, ha, cleanupRun_self]

/-- Claim C2: on any populated session, whatever the externals do
(success or raise at any step), the handler pops the session and every
artifact file it created is gone from local storage when it returns;
the finally epilogue is applied exactly once, by construction, on every
path out of the try body.  Proved for both entry points. -/
theorem claim_C2_unconditional_cleanup
    (env : Env) (st : Store) (fs : FS) (uid : Nat) (s : UserState)
    (msg : Incoming) (h : st uid = some s) :
    ((apify_process_content env st fs uid msg).store uid = none ∧
     (∀ p, (apify_process_content env st fs uid msg).audioArtifact = some p →
       (apify_process_content env st fs uid msg).fs p = false) ∧
     (∀ p, (apify_process_content env st fs uid msg).videoArtifact = some p →
       (apify_process_content env st fs uid msg).fs p = false)) ∧
    ((bot_process_content env st fs uid msg).store uid = none ∧
     (∀ p, (bot_process_content env st fs uid msg).audioArtifact = some p →
       (bot_process_content env st fs uid msg).fs p = false) ∧
     (∀ p, (bot_process_content env st fs uid msg).videoArtifact = some p →
       (bot_process_content env st fs uid msg).fs p = false)) := by
  unfold apify_process_content bot_process_content
  rw [h]
  exact ⟨applyFinally_cleanup _ _ _, applyFinally_cleanup _ _ _⟩

/-- Claim C8: a message from a user with no active session is answered
with the restart instruction and mutates nothing: same store, same file
system.  Proved for both entry points. -/
theorem claim_C8_no_session_no_mutation
    (env : Env) (st : Store) (fs : FS) (uid : Nat) (msg : Incoming)
    (h : st uid = none) :
    ((apify_process_content env st fs uid msg).store = st ∧
     (apify_process_content env st fs uid msg).fs = fs ∧
     (apify_process_content env st fs uid msg).replies =
       ["Please start with /start"]) ∧
    ((bot_process_content env st fs uid msg).store = st ∧
     (bot_process_content env st fs uid msg).fs = fs ∧
     (bot_process_content env st fs uid msg).replies =
       ["⚠️ Please start with /start"]) := by
  unfold apify_process_content bot_process_content
  rw [h]
  exact ⟨⟨rfl, rfl, rfl⟩, ⟨rfl, rfl, rfl⟩⟩

/-- Claim C10: every invocation that finds a session removes it before
returning, on every return path of both handlers (the try body always
ends in the finally epilogue, which pops the session), so no session
survives a processed message. -/
theorem claim_C10_session_removed_every_path
    (env : Env) (st : Store) (fs : FS) (uid : Nat) (s : UserState)
    (msg : Incoming) (h : st uid = some s) :
    (apify_process_content env st fs uid msg).store uid = none ∧
    (bot_process_content env st fs uid msg).store uid = none := by
  unfold apify_process_content bot_process_content
  rw [h]
  exact ⟨(applyFinally_cleanup _ _ _).1, (applyFinally_cleanup _ _ _).1⟩

/-- Externals that always succeed, for concrete evaluations. -/
def envW : Env :=
  { scrape := fun _ _ => Except.ok ["tweet one", "tweet two"],
    transcribe := Except.ok "an idea",
    gpt := fun p => Except.ok ("script for: " ++ p),
    voiceGen := fun _ => Except.ok "output_audio1.mp3",
    videoGen := fun _ => Except.ok "output_video_1.mp4" }

def fsEmpty : FS := fun _ => false

/-- Store after user 1 presses the Twitter button. -/
def storeC1 : Store := handle_button (fun _ => none) 1 InputType.twitter

/-- Claim C1, evaluated at the failing input: after the
handle-capturing message the reply promises a keyword step, but the
finally block has already popped the session, so the keyword message is
answered with the restart prompt and the scrape/generation flow can
never be reached. -/
theorem claim_C1_handle_lost_eval :
    (apify_process_content envW storeC1 fsEmpty 1
        (Incoming.textMsg "elonmusk")).replies =
      ["Got handle @elonmusk\nNow send a keyword to search:"] ∧
    (apify_process_content envW storeC1 fsEmpty 1
        (Incoming.textMsg "elonmusk")).store 1 = none ∧
    (apify_process_content envW
        (apify_process_content envW storeC1 fsEmpty 1
          (Incoming.textMsg "elonmusk")).store
        fsEmpty 1 (Incoming.textMsg "ai")).replies =
      ["Please start with /start"] := by
  refine ⟨?_, ?_, ?_⟩ <;> rfl

/-- Store with one direct-mode session for user 1. -/
def storeW : Store :=
  fun u => if u == 1 then some { input_type := InputType.direct } else none

theorem claim_C2_witness :
    storeW 1 = some { input_type := InputType.direct } ∧
    (((apify_process_content envW storeW fsEmpty 1
         (Incoming.textMsg "hello")).store 1 = none ∧
      (∀ p, (apify_process_content envW storeW fsEmpty 1
          (Incoming.textMsg "hello")).audioArtifact = some p →
        (apify_process_content envW storeW fsEmpty 1
          (Incoming.textMsg "hello")).fs p = false) ∧
      (∀ p, (apify_process_content envW storeW fsEmpty 1
          (Incoming.textMsg "hello")).videoArtifact = some p →
        (apify_process_content envW storeW fsEmpty 1
          (Incoming.textMsg "hello")).fs p = false)) ∧
     ((bot_process_content envW storeW fsEmpty 1
         (Incoming.textMsg "hello")).store 1 = none ∧
      (∀ p, (bot_process_content envW storeW fsEmpty 1
          (Incoming.textMsg "hello")).audioArtifact = some p →
        (bot_process_content envW storeW fsEmpty 1
          (Incoming.textMsg "hello")).fs p = false) ∧
      (∀ p, (bot_process_content envW storeW fsEmpty 1
          (Incoming.textMsg "hello")).videoArtifact = some p →
        (bot_process_content envW storeW fsEmpty 1
          (Incoming.textMsg "hello")).fs p = false))) :=
  ⟨rfl, claim_C2_unconditional_cleanup envW storeW fsEmpty 1
    { input_type := InputType.direct } (Incoming.textMsg "hello") rfl⟩

theorem claim_C8_witness :
    ((fun _ => none : Store) 2 = none) ∧
    (((apify_process_content envW (fun _ => none) fsEmpty 2
         (Incoming.textMsg "hi")).store = (fun _ => none : Store) ∧
      (apify_process_content envW (fun _ => none) fsEmpty 2
         (Incoming.textMsg "hi")).fs = fsEmpty ∧
      (apify_process_content envW (fun _ => none) fsEmpty 2
         (Incoming.textMsg "hi")).replies = ["Please start with /start"]) ∧
     ((bot_process_content envW (fun _ => none) fsEmpty 2
         (Incoming.textMsg "hi")).store = (fun _ => none : Store) ∧
      (bot_process_content envW (fun _ => none) fsEmpty 2
         (Incoming.textMsg "hi")).fs = fsEmpty ∧
      (bot_process_content envW (fun _ => none) fsEmpty 2
         (Incoming.textMsg "hi")).replies = ["⚠️ Please start with /start"])) :=
  ⟨rfl, claim_C8_no_session_no_mutation envW (fun _ => none) fsEmpty 2
    (Incoming.textMsg "hi") rfl⟩

theorem claim_C10_witness :
    storeW 1 = some { input_type := InputType.direct } ∧
    ((apify_process_content envW storeW fsEmpty 1
        (Incoming.voiceNote)).store 1 = none ∧
     (bot_process_content envW storeW fsEmpty 1
        (Incoming.voiceNote)).store 1 = none) :=
  ⟨rfl, claim_C10_session_removed_every_path envW storeW fsEmpty 1
    { input_type := InputType.direct } Incoming.voiceNote rfl⟩

end VideoBot
